import Mathlib

/-!
Verification development for the GroundStation UGV handler
(`src/server/handlers/ugv/prod.py`).

The Python module is shallowly embedded here:

* numeric-string validation (`float(...)` / `int(...)` on ordinary decimal
  literals) is modelled by `pyFloat?` / `pyInt?`; a successfully parsed
  float is the exact rational `m * 10 ^ e` of its decimal literal;
* the vehicle parameter mapping (the external dronekit link stores one
  float per key, per the spec's ParameterStore/VehicleLink interface) is a
  `ParamMap`, and `set_param` / `set_params` / `get_param` mirror the
  handler methods of the same names;
* the mission-file reader `readmission` is modelled over the list of lines
  of the file;
* the telemetry-refresh state machine (`__init__`, `connect`, `update`,
  `quick`, `stats`, `get_armed`, `arm`) is modelled with an explicit
  `UGVState` record and per-read `Except` results describing what each
  access of the external vehicle link returns.

Real-valued navigation math (`math.cos`, `math.sqrt`, `math.pi`) is
embedded with exact reals (`Real.cos`, `Real.sqrt`, `Real.pi`).
-/

/-- Characters stripped by Python's default `str.strip()` (the common
whitespace characters appearing in mission files and parameter strings). -/
def isSpaceChar (c : Char) : Bool :=
  c == ' ' || c == '\t' || c == '\n' || c == '\r'

/-- Strip leading and trailing whitespace from a character list, as
Python's `str.strip()` (and the implicit strip done by `float`/`int`). -/
def trimChars (cs : List Char) : List Char :=
  ((cs.dropWhile isSpaceChar).reverse.dropWhile isSpaceChar).reverse

/-- Read a maximal run of decimal digits: returns the accumulated value,
the number of digits read, and the remaining characters. -/
def readDigitsAux : List Char → ℕ → ℕ → ℕ × ℕ × List Char
  | [], acc, n => (acc, n, [])
  | c :: cs, acc, n =>
      if c.isDigit then readDigitsAux cs (acc * 10 + (c.toNat - 48)) (n + 1)
      else (acc, n, c :: cs)

/-- Exponent suffix of a Python float literal: optional sign then digits,
which must exhaust the input. `m` is the integer mantissa read so far and
`fpn` the number of fractional digits; the result represents the value
`m * 10 ^ (sign·digits - fpn)`. -/
def pyExpPart (m : ℤ) (fpn : ℕ) (r : List Char) : Option (ℤ × ℤ) :=
  let p : ℤ × List Char :=
    match r with
    | '+' :: t => (1, t)
    | '-' :: t => (-1, t)
    | t => (1, t)
  let d := readDigitsAux p.2 0 0
  if d.2.1 = 0 then none
  else if d.2.2 = [] then some (m, p.1 * (d.1 : ℤ) - (fpn : ℤ)) else none

/-- Parse a Python float literal into its exact decimal value, represented
as a pair `(m, e)` denoting `m * 10 ^ e`: optional sign, digits with at
most one decimal point (at least one digit overall), optional exponent
part. Models CPython's `float(str)` on finite decimal literals (the
special spellings `inf`/`nan` and `_` digit separators are outside the
inputs this development uses and are not modelled; the value is the exact
decimal rather than its nearest binary double). -/
def pyFloatDec (cs : List Char) : Option (ℤ × ℤ) :=
  let sp : ℤ × List Char :=
    match cs with
    | '+' :: r => (1, r)
    | '-' :: r => (-1, r)
    | r => (1, r)
  let ip := readDigitsAux sp.2 0 0
  let fp : ℕ × ℕ × List Char :=
    match ip.2.2 with
    | '.' :: r => readDigitsAux r 0 0
    | r => (0, 0, r)
  if ip.2.1 + fp.2.1 = 0 then none
  else
    let m : ℤ := sp.1 * ((ip.1 : ℤ) * (10 : ℤ) ^ fp.2.1 + (fp.1 : ℤ))
    match fp.2.2 with
    | [] => some (m, -(fp.2.1 : ℤ))
    | 'e' :: r => pyExpPart m fp.2.1 r
    | 'E' :: r => pyExpPart m fp.2.1 r
    | _ => none

/-- The rational value of a parsed decimal literal `(m, e)`, i.e.
`m * 10 ^ e`. -/
def decValue (p : ℤ × ℤ) : ℚ :=
  (p.1 : ℚ) * (10 : ℚ) ^ p.2

/-- Model of Python `float(value)` for a string `value`: `some q` when the
conversion succeeds with value `q`, `none` when it raises `ValueError`. -/
def pyFloat? (s : String) : Option ℚ :=
  (pyFloatDec (trimChars s.toList)).map decValue

/-- Model of Python `int(value)`: optional sign then digits only. -/
def pyIntCore (cs : List Char) : Option ℤ :=
  let sp : ℤ × List Char :=
    match cs with
    | '+' :: r => (1, r)
    | '-' :: r => (-1, r)
    | r => (1, r)
  let d := readDigitsAux sp.2 0 0
  if d.2.1 = 0 then none
  else if d.2.2 = [] then some (sp.1 * (d.1 : ℤ)) else none

/-- Model of Python `int(value)` for a string. -/
def pyInt? (s : String) : Option ℤ :=
  pyIntCore (trimChars s.toList)

/-- The error kinds raised by the handler: `GeneralError`,
`InvalidRequestError`, `InvalidStateError` (from `utils.errors`) and the
built-in `TimeoutError` re-raised by `arm`/`disarm`. -/
inductive UGVError
  | general (msg : String)
  | invalidRequest (msg : String)
  | invalidState (msg : String)
  | timeout (msg : String)
deriving DecidableEq

/-- The vehicle-side parameter mapping (`self.vehicle.parameters`): the
external link stores one float value per key. -/
def ParamMap := String → Option ℚ

/-- One link-side parameter write (`self.vehicle.parameters[key] = value`,
where the external link stores the float conversion of the value). -/
def writeParam (params : ParamMap) (key : String) (x : ℚ) : ParamMap :=
  fun q => if q = key then some x else params q

/-- `UGVHandler.set_param` (prod.py lines 262-272): validate the value
with `float(value)`, raising `InvalidRequestError` on `ValueError`, then
write the parameter on the link. Returns the resulting parameter mapping
together with the error raised, if any. -/
def set_param (params : ParamMap) (key value : String) :
    ParamMap × Option UGVError :=
  match pyFloat? value with
  | none =>
      (params, some (.invalidRequest "Parameter Value cannot be converted to float"))
  | some x => (writeParam params key x, none)

/-- `UGVHandler.get_param` (prod.py lines 244-249): read the parameter
from the link; a missing key raises, wrapped as `GeneralError`. -/
def get_param (params : ParamMap) (key : String) : Except UGVError ℚ :=
  match params key with
  | some v => .ok v
  | none => .error (.general "key error")

/-- `UGVHandler.set_params` (prod.py lines 274-287): iterate over the
keyword mapping in order; for each pair first validate with
`float(value)` and then immediately write that key on the link, before
looking at the next pair. A failed validation raises
`InvalidRequestError("Parameter Value cannot be converted to float")`,
but that raise sits inside the method's outer `try:`, whose
`except Exception as e: raise GeneralError(str(e))` clause catches it
and rewraps it — so the error that actually surfaces is `GeneralError`
carrying the same message (unlike `set_param`, whose validation
try/except is a separate statement ahead of the write's try block). -/
def set_params (params : ParamMap) :
    List (String × String) → ParamMap × Option UGVError
  | [] => (params, none)
  | (k, v) :: rest =>
    match pyFloat? v with
    | none =>
        (params, some (.general "Parameter Value cannot be converted to float"))
    | some x => set_params (writeParam params k x) rest

/-- Apply the writes of a list of key/value pairs in order (the prefix of
`set_params` that completes before a validation failure). -/
def applyParams (params : ParamMap) : List (String × String) → ParamMap
  | [] => params
  | (k, v) :: rest =>
    applyParams (fun q => if q = k then pyFloat? v else params q) rest

/-- Split a character list on tab characters, as Python `line.split("\t")`. -/
def splitTab : List Char → List (List Char)
  | [] => [[]]
  | c :: cs =>
    if c = '\t' then [] :: splitTab cs
    else
      match splitTab cs with
      | [] => [[c]]
      | g :: gs => (c :: g) :: gs

/-- The fields the mission-file reader extracts from one data row, in the
order they are bound in `readmission` (prod.py lines 44-54). -/
structure MissionCmd where
  currentwp : ℤ
  frame : ℤ
  command : ℤ
  param1 : ℚ
  param2 : ℚ
  param3 : ℚ
  param4 : ℚ
  param5 : ℚ
  param6 : ℚ
  param7 : ℚ
  autocontinue : ℤ
deriving DecidableEq

/-- Index into the tab-separated fields of a row and parse with
`int(...)`, as `int(linearray[i])`; a missing index (IndexError) or a
failed conversion (ValueError) is `none`. -/
def intField (a : List (List Char)) (i : ℕ) : Option ℤ :=
  (a.get? i).bind fun x => pyIntCore (trimChars x)

/-- Index into the tab-separated fields of a row and parse with
`float(...)`, as `float(linearray[i])`. -/
def floatField (a : List (List Char)) (i : ℕ) : Option ℚ :=
  (a.get? i).bind fun x => (pyFloatDec (trimChars x)).map decValue

/-- Parse one data row of a mission file (prod.py lines 43-71): split on
tabs, then parse fields 1-3 as ints, 4-10 as floats, 11 as an int after
stripping; a missing field (IndexError) or failed numeric conversion
(ValueError) aborts with an exception, modelled as `none`. -/
def parseMissionLine (line : String) : Option MissionCmd :=
  let a := splitTab line.toList
  (intField a 1).bind fun ln_currentwp =>
  (intField a 2).bind fun ln_frame =>
  (intField a 3).bind fun ln_command =>
  (floatField a 4).bind fun ln_param1 =>
  (floatField a 5).bind fun ln_param2 =>
  (floatField a 6).bind fun ln_param3 =>
  (floatField a 7).bind fun ln_param4 =>
  (floatField a 8).bind fun ln_param5 =>
  (floatField a 9).bind fun ln_param6 =>
  (floatField a 10).bind fun ln_param7 =>
  (intField a 11).bind fun ln_autocontinue =>
  some { currentwp := ln_currentwp, frame := ln_frame, command := ln_command,
         param1 := ln_param1, param2 := ln_param2, param3 := ln_param3,
         param4 := ln_param4, param5 := ln_param5, param6 := ln_param6,
         param7 := ln_param7, autocontinue := ln_autocontinue }

/-- Parse the data rows following the header; the first bad row raises,
discarding the whole mission list. -/
def parseMissionRows : List String → Except String (List MissionCmd)
  | [] => .ok []
  | l :: ls =>
    match parseMissionLine l with
    | none => .error "invalid waypoint line"
    | some cmd =>
      match parseMissionRows ls with
      | .error e => .error e
      | .ok rest => .ok (cmd :: rest)

/-- `readmission` (prod.py lines 29-72) on the list of lines of the file:
line 0 is accepted when it *starts with* `"QGC WPL 110"`
(`line.startswith(...)`); otherwise the reader raises
`Exception("File is not supported WP version")` before any row is parsed. -/
def readmission (lines : List String) : Except String (List MissionCmd) :=
  match lines with
  | [] => .ok []
  | first :: rest =>
    if ("QGC WPL 110".toList).isPrefixOf first.toList then parseMissionRows rest
    else .error "File is not supported WP version"
/-- Class attribute `UGVHandler.mph = 2.23694` (m/s → mph factor). -/
noncomputable def mph : ℝ := 2.23694

/-- Yaw normalization of `update` (prod.py lines 145-146): convert the
link's yaw from radians to degrees and add 360 once if negative. -/
noncomputable def normalizeYaw (yawRad : ℝ) : ℝ :=
  if yawRad * 180 / Real.pi < 0 then yawRad * 180 / Real.pi + 360
  else yawRad * 180 / Real.pi

/-- The distance-to-destination computation of `update` (prod.py lines
157-162): the code multiplies the cosine factor into `x_dist`, which is
the *latitude* difference to the drop target. -/
noncomputable def dist_to_dest_calc (lat lon droplat droplon : ℝ) : ℝ :=
  Real.sqrt (((droplat - lat) * (Real.cos (lat * Real.pi / 180) * 69.172) * 5280) ^ 2
    + ((droplon - lon) * 69.172 * 5280) ^ 2)

/-- Modelled from the spec: the equirectangular distance formula of §4.1,
`dx_ft = (targetLon - lon) * cos(lat·π/180) * 69.172 * 5280`,
`dy_ft = (targetLat - lat) * 69.172 * 5280`,
`distance = sqrt(dx_ft² + dy_ft²)` (cosine on the longitude difference).
Stated for comparison with `dist_to_dest_calc`, which is what the code
computes. -/
noncomputable def specDistFormula (lat lon droplat droplon : ℝ) : ℝ :=
  Real.sqrt (((droplon - lon) * Real.cos (lat * Real.pi / 180) * 69.172 * 5280) ^ 2
    + ((droplat - lat) * 69.172 * 5280) ^ 2)

/-- The mutable attributes of `UGVHandler` touched by the state
synchronization core (prod.py `__init__`, lines 96-122). GPS quality is
the triple (eph, epv, satellites_visible). -/
structure UGVState where
  vehicle : Option ℕ
  yaw : Option ℝ
  ground_speed : Option ℝ
  droppos : Option (ℝ × ℝ)
  dest : Option ((ℝ × ℝ) × ℝ)
  dist_to_dest : Option ℝ
  battery : Option ℝ
  lat : Option ℝ
  lon : Option ℝ
  connection : Option (ℝ × ℝ × ℕ)
  gps : Option (ℝ × ℝ × ℕ)
  mode : String
  commands : List MissionCmd
  armed : Bool
  status : String

/-- The freshly constructed handler (`__init__`): every telemetry field is
`None`, then `mode` is reset to `VehicleMode("MANUAL")`, `commands = []`,
`armed = False`, `status = "BOOT"`. -/
def initState : UGVState :=
  { vehicle := none, yaw := none, ground_speed := none, droppos := none,
    dest := none, dist_to_dest := none, battery := none, lat := none,
    lon := none, connection := none, gps := none, mode := "MANUAL",
    commands := [], armed := false, status := "BOOT" }

/-- What one execution of `update` reads from the external vehicle link
and the interop target provider: each access either returns a value or
raises (`.error`). `loc` is (lat, lon); `attitude` is the raw yaw in
radians; `gps_0` is (eph, epv, satellites_visible); `interop` is the drop
target (latitude, longitude) from `gs.interop.get_data("ugv")["result"]`. -/
structure LinkInput where
  loc : Except Unit (ℝ × ℝ)
  attitude : Except Unit ℝ
  battery : Except Unit ℝ
  groundspeed : Except Unit ℝ
  gps_0 : Except Unit (ℝ × ℝ × ℕ)
  mode : Except Unit String
  interop : Except Unit (ℝ × ℝ)
  armed : Except Unit Bool

/-- Tail of `update` after the drop target is available (prod.py lines
157-165): compute the distance, store droppos/dist/dest, then read and
store the armed flag. -/
noncomputable def updateTail (s : UGVState) (loc drop : ℝ × ℝ)
    (armedRead : Except Unit Bool) : UGVState × Bool :=
  let d := dist_to_dest_calc loc.1 loc.2 drop.1 drop.2
  let s5 := { s with droppos := some drop, dist_to_dest := some d,
                     dest := some (drop, d) }
  match armedRead with
  | .error _ => (s5, false)
  | .ok a => ({ s5 with armed := a }, true)

/-- `UGVHandler.update` (prod.py lines 139-168) as a state transformer:
the returned Boolean is `true` on success and `false` when the method
raises `GeneralError`; the returned state holds whatever assignments had
already been executed when the failure occurred (Python mutates `self`
in place, so a mid-way failure keeps the partial writes). Assignment
order follows the source: loc/attitude/battery are read first, then yaw
is stored, then groundspeed is read, then ground_speed/battery/lat/lon
are stored, then gps and connection, then mode, then the drop target is
fetched if not cached, then distance/dest, then armed. -/
noncomputable def update (inp : LinkInput) (s : UGVState) : UGVState × Bool :=
  match inp.loc with
  | .error _ => (s, false)
  | .ok loc =>
    match inp.attitude with
    | .error _ => (s, false)
    | .ok yawRad =>
      match inp.battery with
      | .error _ => (s, false)
      | .ok voltage =>
        let s1 := { s with yaw := some (normalizeYaw yawRad) }
        match inp.groundspeed with
        | .error _ => (s1, false)
        | .ok gspd =>
          let s2 := { s1 with ground_speed := some (gspd * mph),
                              battery := some voltage,
                              lat := some loc.1, lon := some loc.2 }
          match inp.gps_0 with
          | .error _ => (s2, false)
          | .ok g =>
            let s3 := { s2 with gps := some g, connection := some g }
            match inp.mode with
            | .error _ => (s3, false)
            | .ok m =>
              let s4 := { s3 with mode := m }
              match s4.droppos with
              | some drop => updateTail s4 loc drop inp.armed
              | none =>
                match inp.interop with
                | .error _ => (s4, false)
                | .ok drop => updateTail s4 loc drop inp.armed

/-- `UGVHandler.connect` (prod.py lines 126-137): establish the link
(assigning `self.vehicle`), then run one `update`; any failure is
re-raised as `GeneralError` (`false`), and nothing resets `self.vehicle`
on the way out. -/
noncomputable def connect (estab : Except Unit ℕ) (inp : LinkInput)
    (s : UGVState) : UGVState × Bool :=
  match estab with
  | .error _ => (s, false)
  | .ok v => update inp { s with vehicle := some v }

/-- The live link values read by `stats`/`get_armed` outside of `update`:
the armed and armable flags and `system_status.state`. -/
structure LinkView where
  armed : Bool
  is_armable : Bool
  system_status : String

/-- The `result` payload of `UGVHandler.quick` (prod.py lines 170-181),
field for field. -/
structure QuickPayload where
  yaw : Option ℝ
  lat : Option ℝ
  lon : Option ℝ
  ground_speed : Option ℝ
  battery : Option ℝ
  destination : Option ((ℝ × ℝ) × ℝ)
  connection : Option (ℝ × ℝ × ℕ)

/-- `UGVHandler.quick`: builds its payload from the cached attributes
only (the method body never mentions `self.vehicle`; the `link` argument
records that the live link was available but unused). -/
def quick (s : UGVState) (_link : LinkView) : QuickPayload :=
  { yaw := s.yaw, lat := s.lat, lon := s.lon, ground_speed := s.ground_speed,
    battery := s.battery, destination := s.dest, connection := s.connection }

/-- `UGVHandler.get_armed` (prod.py lines 366-375): classification of the
armed state from the link's live `armed`/`is_armable` flags. -/
def get_armed (link : LinkView) : String :=
  if link.armed then "ARMED"
  else if link.is_armable then "DISARMED (ARMABLE)"
  else "DISARMED (NOT ARMABLE)"

/-- The `result` payload of `UGVHandler.stats` (prod.py lines 183-192). -/
structure StatsPayload where
  quick : QuickPayload
  mode : String
  commands : List MissionCmd
  armed : String
  status : String

/-- `UGVHandler.stats`: the quick payload and cached mode/commands, plus
`get_armed()` and `self.vehicle.system_status.state`, both of which read
the live link. -/
def stats (s : UGVState) (link : LinkView) : StatsPayload :=
  { quick := quick s link, mode := s.mode, commands := s.commands,
    armed := get_armed link, status := link.system_status }

/-- Outcome of the blocking `self.vehicle.arm(wait=True, timeout=15)`
request on the external link: completion, expiry of the deadline
(surfaced to the handler as `TimeoutError`), or some other failure with
message `msg`. -/
inductive ArmOutcome
  | success
  | timedOut
  | failed (msg : String)
deriving DecidableEq

/-- What `arm` can observe of the link: the live `is_armable` flag and
the outcome of the blocking arm request. -/
structure ArmLink where
  is_armable : Bool
  armResult : ArmOutcome

/-- `UGVHandler.arm` (prod.py lines 377-388). The second component
records the call made to the link's arm endpoint: `none` if it was never
invoked, `some t` if it was invoked with timeout `t` seconds. -/
def arm (link : ArmLink) : Except UGVError Unit × Option ℕ :=
  if link.is_armable = false then
    (.error (.invalidState "Vehicle is not armable"), none)
  else
    match link.armResult with
    | .success => (.ok (), some 15)
    | .timedOut => (.error (.timeout "Vehicle arming timed out"), some 15)
    | .failed msg => (.error (.general msg), some 15)

/-- A concrete refresh input whose gps read fails after the earlier reads
succeed (used to exhibit a mid-refresh failure). -/
noncomputable def inpGpsFail : LinkInput :=
  { loc := .ok (1, 2), attitude := .ok 0, battery := .ok 12, groundspeed := .ok 0,
    gps_0 := .error (), mode := .ok "MANUAL", interop := .error (), armed := .ok false }

/-- A concrete refresh input whose very first read (the location) fails. -/
noncomputable def inpLocFail : LinkInput :=
  { loc := .error (), attitude := .ok 0, battery := .ok 0, groundspeed := .ok 0,
    gps_0 := .error (), mode := .ok "MANUAL", interop := .error (), armed := .ok false }
/-- Claim C4 (amended): `set_params` validates and applies keys one at a
time in mapping order — on the first value failing float validation the
call aborts, the keys before it have already been written and the
failing and later keys are not — and, because the `InvalidRequestError`
is raised inside the outer `try:` and rewrapped by its
`except Exception` clause, the call surfaces `GeneralError` with the
validation message (not `InvalidRequest`). -/
theorem set_params_prefix_applied (params : ParamMap) (l1 l2 : List (String × String))
    (k v : String) (hbad : pyFloat? v = none)
    (hgood : ∀ p ∈ l1, (pyFloat? p.2).isSome = true) :
    set_params params (l1 ++ (k, v) :: l2) =
      (applyParams params l1,
        some (.general "Parameter Value cannot be converted to float")) := by
  induction l1 generalizing params with
  | nil =>
    simp only [List.nil_append, set_params, applyParams, hbad]
  | cons p rest ih =>
    obtain ⟨k0, v0⟩ := p
    have hv0 : (pyFloat? v0).isSome = true := hgood (k0, v0) (by simp)
    obtain ⟨x, hx⟩ := Option.isSome_iff_exists.mp hv0
    simp only [List.cons_append, set_params, applyParams, hx]
    have hfn : (fun q => if q = k0 then some x else params q) = writeParam params k0 x := rfl
    rw [hfn]
    exact ih (writeParam params k0 x) fun p hp => hgood p (by simp [hp])

/-- Claim C4 counterexample: on the mapping `{A: "1", B: "x"}` the call
fails, yet key `A` has already been written (so not all keys are
validated before any is applied), and the surfaced error is the
`GeneralError` rewrap, which is a different error kind than the
`InvalidRequest` the claim names. -/
theorem set_params_not_atomic_cx :
    (set_params (fun _ => none) [("A", "1"), ("B", "x")]).2 =
        some (.general "Parameter Value cannot be converted to float") ∧
    UGVError.general "Parameter Value cannot be converted to float" ≠
      UGVError.invalidRequest "Parameter Value cannot be converted to float" ∧
    (set_params (fun _ => none) [("A", "1"), ("B", "x")]).1 "A" = some (decValue (1, 0)) ∧
    decValue (1, 0) = 1 :=
  ⟨rfl, by decide, rfl, by norm_num [decValue]⟩

/-- Claim C4 witness: the amended theorem applied to the mapping
`{A: "1", B: "x", C: "2"}`. -/
theorem set_params_prefix_applied_witness :
    set_params (fun _ => none) ([("A", "1")] ++ ("B", "x") :: [("C", "2")]) =
      (applyParams (fun _ => none) [("A", "1")],
        some (.general "Parameter Value cannot be converted to float")) :=
  set_params_prefix_applied (fun _ => none) [("A", "1")] [("C", "2")] "B" "x"
    rfl (by decide)

/-- Claim C9: a value string parseable as a float (e.g. "3.14", whose
parse is 157/50) makes `set_param` succeed, and a subsequent `get_param`
of the same key returns exactly the parsed float; a value that is not
parseable makes `set_param` fail with `InvalidRequest` (its validation
try/except precedes the write's try block, so the error escapes
unwrapped) and leaves the parameter mapping unchanged. -/
theorem set_param_get_param (params : ParamMap) (key value : String) :
    pyFloat? "3.14" = some (157 / 50) ∧
    (∀ x, pyFloat? value = some x →
      set_param params key value = (writeParam params key x, none) ∧
      get_param (set_param params key value).1 key = .ok x) ∧
    (pyFloat? value = none →
      set_param params key value =
        (params, some (.invalidRequest "Parameter Value cannot be converted to float"))) := by
  refine ⟨?_, fun x hx => ?_, fun hx => ?_⟩
  · have h : pyFloat? "3.14" = some (decValue (314, -2)) := rfl
    rw [h]
    norm_num [decValue]
  · have hs : set_param params key value = (writeParam params key x, none) := by
      unfold set_param
      rw [hx]
    refine ⟨hs, ?_⟩
    rw [hs]
    unfold get_param writeParam
    simp
  · unfold set_param
    rw [hx]

/-- Claim C9 witness: the theorem applied at key "KEY" and value "3.14"
on an empty mapping. -/
theorem set_param_get_param_witness :
    get_param (set_param (fun _ => none) "KEY" "3.14").1 "KEY" = .ok (decValue (314, -2)) :=
  ((set_param_get_param (fun _ => none) "KEY" "3.14").2.1 (decValue (314, -2)) rfl).2

/-- Claim C8 (amended): `readmission` rejects a file whose first line
does not start with the literal "QGC WPL 110" (the check is
`startswith`, not equality), failing with the format error before any
data row is parsed and producing no partial mission. -/
theorem readmission_bad_header (first : String) (rest : List String)
    (h : (("QGC WPL 110".toList).isPrefixOf first.toList) = false) :
    readmission (first :: rest) = .error "File is not supported WP version" := by
  simp only [readmission]
  rw [h]
  simp

/-- Claim C8 counterexample: a file whose first line is
"QGC WPL 110 extra" — not equal to the header literal — is nevertheless
accepted, refuting the claim that any first line unequal to the literal
is rejected. -/
theorem readmission_prefix_not_equality_cx :
    readmission ["QGC WPL 110 extra"] = .ok [] ∧
    "QGC WPL 110 extra" ≠ "QGC WPL 110" :=
  ⟨rfl, by decide⟩

/-- Claim C8 witness: the amended theorem applied to a file whose line 0
is "BAD HEADER" followed by one well-formed data row. -/
theorem readmission_bad_header_witness :
    readmission ["BAD HEADER", "0\t0\t3\t16\t0\t0\t0\t0\t1\t2\t3\t1"] =
      .error "File is not supported WP version" :=
  readmission_bad_header "BAD HEADER" ["0\t0\t3\t16\t0\t0\t0\t0\t1\t2\t3\t1"] (by decide)

/-- `update` never assigns `self.vehicle`: the vehicle reference after a
refresh, failed or not, is the one from before it. -/
theorem update_preserves_vehicle (inp : LinkInput) (s : UGVState) :
    ((update inp s).1).vehicle = s.vehicle := by
  obtain ⟨loc, att, batt, gspd, gps0, md, itp, armd⟩ := inp
  obtain ⟨veh, yw, gsp, dpos, dst, dtd, bat, la, lo, conn, gp, mo, cmds, armd2, st⟩ := s
  cases loc <;> cases att <;> cases batt <;> cases gspd <;> cases gps0 <;>
    cases md <;> cases dpos <;> cases itp <;> cases armd <;> rfl

/-- Claim C1 (code_bug evaluation): at vehicle position (60°, 0°) and drop
target (60°, 1°) the code's distance (`dist_to_dest_calc`, cosine applied
to the latitude difference) is `69.172 * 5280` ft, while the spec's
equirectangular formula (cosine applied to the longitude difference)
gives half of that; the two disagree. -/
theorem dist_formula_divergence :
    dist_to_dest_calc 60 0 60 1 = 69.172 * 5280 ∧
    specDistFormula 60 0 60 1 = 69.172 * 5280 / 2 ∧
    dist_to_dest_calc 60 0 60 1 ≠ specDistFormula 60 0 60 1 := by
  have hcos : Real.cos (60 * Real.pi / 180) = 1 / 2 := by
    rw [show (60 : ℝ) * Real.pi / 180 = Real.pi / 3 by ring]
    exact Real.cos_pi_div_three
  have h1 : dist_to_dest_calc 60 0 60 1 = 69.172 * 5280 := by
    unfold dist_to_dest_calc
    rw [show ((60 : ℝ) - 60) * (Real.cos (60 * Real.pi / 180) * 69.172) * 5280 = 0 by ring]
    rw [show ((1 : ℝ) - 0) * 69.172 * 5280 = 69.172 * 5280 by ring]
    rw [show (0 : ℝ) ^ 2 + (69.172 * 5280) ^ 2 = (69.172 * 5280) ^ 2 by ring]
    exact Real.sqrt_sq (by norm_num)
  have h2 : specDistFormula 60 0 60 1 = 69.172 * 5280 / 2 := by
    unfold specDistFormula
    rw [hcos]
    rw [show ((1 : ℝ) - 0) * (1 / 2) * 69.172 * 5280 = 69.172 * 5280 / 2 by ring]
    rw [show ((60 : ℝ) - 60) * 69.172 * 5280 = 0 by ring]
    rw [show (69.172 * 5280 / 2 : ℝ) ^ 2 + 0 ^ 2 = (69.172 * 5280 / 2) ^ 2 by ring]
    exact Real.sqrt_sq (by norm_num)
  refine ⟨h1, h2, ?_⟩
  rw [h1, h2]
  norm_num

/-- Claim C2 (amended): a refresh that fails during the initial
location/attitude/battery reads — before any snapshot field is assigned —
reports failure and leaves the whole handler state unchanged. (A later
failure keeps the assignments already made; see the counterexample.) -/
theorem update_unchanged_on_initial_read_failure (inp : LinkInput) (s : UGVState)
    (h : inp.loc = .error () ∨ inp.attitude = .error () ∨ inp.battery = .error ()) :
    update inp s = (s, false) := by
  unfold update
  rcases h with h | h | h
  · rw [h]
  · rcases hl : inp.loc with _ | l
    · rfl
    · rw [h]
  · rcases hl : inp.loc with _ | l
    · rfl
    · rcases ha : inp.attitude with _ | a
      · rfl
      · rw [h]

/-- Claim C2 counterexample: a refresh whose gps read fails (after the
location/attitude/battery reads succeeded) reports failure, yet the
published yaw is no longer its pre-refresh value — the snapshot is not
left at its last good value. -/
theorem update_midway_failure_mutates_cx :
    (update inpGpsFail initState).2 = false ∧
    (update inpGpsFail initState).1.yaw ≠ initState.yaw := by
  refine ⟨rfl, ?_⟩
  have h : (update inpGpsFail initState).1.yaw = some (normalizeYaw 0) := rfl
  rw [h]
  simp [initState]

/-- Claim C2 witness: the amended theorem applied at a concrete failing
first read. -/
theorem update_unchanged_witness :
    update inpLocFail initState = (initState, false) :=
  update_unchanged_on_initial_read_failure inpLocFail initState (Or.inl rfl)

/-- Claim C3 (amended): the stored yaw lies in [0, 360) for every raw yaw
whose degree conversion lies in [-360, 360), i.e. raw radians in
[-2π, 2π) — the range containing everything the link's attitude read can
produce. (The single `+= 360` correction does not normalize arbitrary
reals; see the counterexample.) -/
theorem normalizeYaw_range (y : ℝ) (h1 : -(2 * Real.pi) ≤ y) (h2 : y < 2 * Real.pi) :
    0 ≤ normalizeYaw y ∧ normalizeYaw y < 360 := by
  have hpi := Real.pi_pos
  have hub : y * 180 / Real.pi < 360 := by
    rw [div_lt_iff₀ hpi]
    nlinarith
  have hlb : -360 ≤ y * 180 / Real.pi := by
    rw [le_div_iff₀ hpi]
    nlinarith
  unfold normalizeYaw
  by_cases hc : y * 180 / Real.pi < 0
  · rw [if_pos hc]
    constructor <;> linarith
  · rw [if_neg hc]
    push_neg at hc
    exact ⟨hc, hub⟩

/-- Claim C3 counterexample: the raw yaw `2π` rad converts to 360°, is
not negative so the `+= 360` correction does not fire, and is stored as
360 — outside [0, 360). -/
theorem normalizeYaw_out_of_range_cx :
    normalizeYaw (2 * Real.pi) = 360 ∧ ¬ normalizeYaw (2 * Real.pi) < 360 := by
  have h : normalizeYaw (2 * Real.pi) = 360 := by
    unfold normalizeYaw
    rw [show 2 * Real.pi * 180 / Real.pi = 360 from by
      field_simp
      ring]
    norm_num
  refine ⟨h, by rw [h]; norm_num⟩

/-- Claim C3 witness: the amended theorem applied at raw yaw 0. -/
theorem normalizeYaw_range_witness :
    0 ≤ normalizeYaw 0 ∧ normalizeYaw 0 < 360 :=
  normalizeYaw_range 0 (by nlinarith [Real.pi_pos]) (by nlinarith [Real.pi_pos])

/-- Claim C5 (amended): `quick` is a function of the cached snapshot only
(its result is unchanged under any change of the live link state), while
`stats` depends on the live link exactly through the armed classification
and `system_status` it reads from it. -/
theorem quick_snapshot_only_stats_reads_link (s : UGVState) (l1 l2 : LinkView) :
    quick s l1 = quick s l2 ∧
    (get_armed l1 = get_armed l2 → l1.system_status = l2.system_status →
      stats s l1 = stats s l2) := by
  refine ⟨rfl, fun h1 h2 => ?_⟩
  unfold stats quick
  rw [h1, h2]

/-- Claim C5 counterexample: with the same cached snapshot, `stats`
returns different payloads for different live link states — `stats` reads
the link (armed classification), contradicting the claim that it is a
function of the cached snapshot alone. -/
theorem stats_depends_on_link_cx :
    stats initState ⟨true, true, "STANDBY"⟩ ≠ stats initState ⟨false, false, "STANDBY"⟩ := by
  intro h
  have h2 := congrArg StatsPayload.armed h
  simp [stats, get_armed] at h2

/-- Claim C5 witness: the theorem applied at concrete states and links. -/
theorem quick_snapshot_only_witness :
    quick initState ⟨true, false, "S"⟩ = quick initState ⟨false, true, "T"⟩ ∧
    stats initState ⟨true, false, "S"⟩ = stats initState ⟨true, true, "S"⟩ :=
  ⟨(quick_snapshot_only_stats_reads_link initState ⟨true, false, "S"⟩ ⟨false, true, "T"⟩).1,
   (quick_snapshot_only_stats_reads_link initState ⟨true, false, "S"⟩ ⟨true, true, "S"⟩).2 rfl rfl⟩

/-- Claim C6: on a not-armable vehicle `arm` fails with `InvalidState`
and never invokes the link's arm endpoint; on an armable vehicle the
blocking arm request is issued with a 15-second timeout, a timed-out
request surfaces the dedicated timeout error, and the timeout error kind
is distinct from the generic `GeneralError` kind. -/
theorem arm_preconditions (armable : Bool) (res : ArmOutcome) :
    (armable = false →
      arm ⟨armable, res⟩ = (.error (.invalidState "Vehicle is not armable"), none)) ∧
    (armable = true → (arm ⟨armable, res⟩).2 = some 15) ∧
    (armable = true → res = .timedOut →
      (arm ⟨armable, res⟩).1 = .error (.timeout "Vehicle arming timed out")) ∧
    (∀ m1 m2, (UGVError.timeout m1) ≠ (UGVError.general m2)) := by
  refine ⟨fun h => ?_, fun h => ?_, fun h hr => ?_, fun m1 m2 h => by cases h⟩
  · subst h; rfl
  · subst h; cases res <;> rfl
  · subst h; subst hr; rfl

/-- Claim C6 witness: the theorem applied to a not-armable link and to an
armable link whose arm request times out. -/
theorem arm_preconditions_witness :
    arm ⟨false, .success⟩ = (.error (.invalidState "Vehicle is not armable"), none) ∧
    (arm ⟨true, .timedOut⟩).1 = .error (.timeout "Vehicle arming timed out") :=
  ⟨(arm_preconditions false .success).1 rfl,
   (arm_preconditions true .timedOut).2.2.1 rfl rfl⟩

/-- Claim C7 (amended): if link establishment itself fails, `connect`
reports failure with the handler state (and so the vehicle reference)
unchanged; but once establishment succeeds the new link is stored in
`self.vehicle` and remains stored even when the immediate post-connect
refresh fails. -/
theorem connect_no_reset (estab : Except Unit ℕ) (inp : LinkInput) (s : UGVState) :
    (estab = .error () → connect estab inp s = (s, false)) ∧
    (∀ v, estab = .ok v → ((connect estab inp s).1).vehicle = some v) := by
  constructor
  · intro h; subst h; rfl
  · intro v h
    subst h
    show ((update inp { s with vehicle := some v }).1).vehicle = some v
    rw [update_preserves_vehicle]

/-- Claim C7 counterexample: establishment succeeds, the immediate
refresh fails, the call reports failure — and the new VehicleLink is
retained (`vehicle = some 1`), not discarded as the claim states. -/
theorem connect_retains_link_cx :
    initState.vehicle = none ∧
    (connect (.ok 1) inpLocFail initState).2 = false ∧
    ((connect (.ok 1) inpLocFail initState).1).vehicle = some 1 :=
  ⟨rfl, rfl, rfl⟩

/-- Claim C7 witness: the amended theorem applied at concrete inputs. -/
theorem connect_no_reset_witness :
    connect (.error ()) inpLocFail initState = (initState, false) ∧
    ((connect (.ok 1) inpLocFail initState).1).vehicle = some 1 :=
  ⟨(connect_no_reset (.error ()) inpLocFail initState).1 rfl,
   (connect_no_reset (.ok 1) inpLocFail initState).2 1 rfl⟩

/-- Claim C10: on the freshly constructed handler (no connect/refresh
ever run), `quick` succeeds and returns a payload whose yaw, lat, lon,
ground_speed, battery, destination and connection are all `None`, and the
handler's armed flag is `False`. -/
theorem quick_fresh_state (link : LinkView) :
    quick initState link =
      { yaw := none, lat := none, lon := none, ground_speed := none,
        battery := none, destination := none, connection := none } ∧
    initState.armed = false :=
  ⟨rfl, rfl⟩
